import Mathlib

/-!
Shallow embedding of the starknet-message-signing library core:
the recursive typed-data validator (`validateType` in template.ts),
the verification pipeline (`verifySignature` in verify.ts), and the
nonce replay guard (`verifyWithNonce` and `MemoryNonceAdapter` in
nonce.ts).  External collaborators (the RPC provider's signature
check, the deployment-status query and the wall clock) are modelled
as explicit parameters.
-/

/-- A JavaScript value as it appears in a typed-data message: a string,
a number (JS numbers are modelled as rationals; NaN never appears as a
stored value in the scenarios of interest), a bigint, or a plain object
whose own enumerable keys are listed in enumeration order. -/
inductive Value where
  | vstr (s : String)
  | vnum (q : ℚ)
  | vbig (n : ℤ)
  | vobj (fields : List (String × Value))

/-- One entry of a struct definition (`StarknetType`): a field name and
its type tag. -/
structure SField where
  name : String
  type : String
deriving DecidableEq

/-- `types`: the mapping from type name to ordered field list, in
declaration order. -/
def TypesMap := List (String × List SField)

/-- First-match association-list lookup; models JS property access /
`Map.get` on string keys. -/
def listLookup {α : Type} : List (String × α) → String → Option α
  | [], _ => none
  | (k, v) :: rest, key => if k = key then some v else listLookup rest key

/-- `Object.keys(data)`: own enumerable keys of an object in enumeration
order; index keys for a string; empty for numbers and bigints. -/
def keysOf : Value → List String
  | .vobj l => l.map (·.1)
  | .vstr s => (List.range s.length).map (fun i => toString i)
  | .vnum _ => []
  | .vbig _ => []

/-- An error thrown by validation: `typed` models a `TypedDataError`
(field path plus leaf message, errors.ts); `engine` models a host
`TypeError` (e.g. the `in` operator applied to a primitive), whose
message text is host-defined. -/
inductive VError where
  | typed (fieldInfo : List String) (message : String)
  | engine (message : String)
deriving DecidableEq

/-- `new TypedDataError(field, childError)`: prepend a path segment to a
child error.  A host `TypeError` child has no `fieldInfo`, so the
constructor itself throws another host error; it stays `engine`. -/
def wrapError (name : String) : VError → VError
  | .typed p m => .typed (name :: p) m
  | .engine m => .engine m

/-- `e.message` as read by a `catch` block: the leaf message, without
the accumulated field path. -/
def errMessage : VError → String
  | .typed _ m => m
  | .engine m => m

theorem listLookup_sizeOf_lt {l : List (String × Value)} {k : String} {v : Value}
    (h : listLookup l k = some v) : sizeOf v < 1 + sizeOf l := by
  induction l with
  | nil => simp [listLookup] at h
  | cons p rest ih =>
    rw [listLookup] at h
    split at h
    · cases h
      cases p with
      | mk a b => simp; omega
    · have := ih h
      cases p with
      | mk a b => simp; omega

mutual

/-- The single-`StarknetType` branch of `validateType` (template.ts):
dispatch on the type tag string, with `shortstring` / `string` / `felt`
primitive checks, unsupported tags, and reference resolution through
`types`. -/
def validateSingle (types : List (String × List SField)) (tag : String) (data : Value) :
    Except VError Unit :=
  if tag = "shortstring" then
    match data with
    | .vstr s => if s.length ≤ 31 then .ok () else .error (.typed [] "Not a shortstring")
    | _ => .error (.typed [] "Not a shortstring")
  else if tag = "string" then
    match data with
    | .vstr _ => .ok ()
    | _ => .error (.typed [] "Not a string")
  else if tag = "felt" then
    match data with
    | .vobj _ => .error (.typed [] "Not a felt")
    | _ => .ok ()
  else if tag = "enum" ∨ tag = "merkletree" then
    .error (.typed [] ("Type " ++ tag ++ " not supported"))
  else
    match listLookup types tag with
    | none => .error (.typed [] ("Type " ++ tag ++ " not found in defined types"))
    | some fields => validateStruct types fields data
termination_by (sizeOf data, 2, 0)

/-- The array branch of `validateType`: first the unexpected-field scan
over `Object.keys(data)`, then the per-field loop. -/
def validateStruct (types : List (String × List SField)) (fields : List SField) (data : Value) :
    Except VError Unit :=
  let dataFields := keysOf data
  let typeFields := fields.map (·.name)
  match dataFields.filter (fun f => !typeFields.contains f) with
  | u :: _ => .error (.typed [u] "unexpected field")
  | [] => validateFields types fields data
termination_by (sizeOf data, 1, sizeOf fields)

/-- The `for (const field of type)` loop of `validateType`'s array
branch: presence check (`field.name in data`, a host error on a
primitive), then recursive validation of the field's value, wrapping a
child error with the field name. -/
def validateFields (types : List (String × List SField)) (fields : List SField) (data : Value) :
    Except VError Unit :=
  match fields, data with
  | [], _ => .ok ()
  | f :: rest, .vobj l =>
    match h : listLookup l f.name with
    | none => .error (.typed [f.name] "missing field")
    | some v =>
      match validateSingle types f.type v with
      | .error e => .error (wrapError f.name e)
      | .ok _ => validateFields types rest (.vobj l)
  | _ :: _, _ => .error (.engine "in operator applied to a primitive")
termination_by (sizeOf data, 0, sizeOf fields)
decreasing_by
  · simp_wf
    have hlt := listLookup_sizeOf_lt h
    apply Prod.Lex.left
    omega
  · simp_wf
    apply Prod.Lex.right
    apply Prod.Lex.right
    omega

end

/-- Digit-string to natural number; `none` when a non-digit occurs.
An empty list yields `some 0` (callers guard emptiness). -/
def digitsToNat : List Char → Option ℕ
  | [] => some 0
  | c :: cs =>
    if c.isDigit then
      match digitsToNat cs with
      | none => none
      | some n => some ((c.toNat - 48) * 10 ^ cs.length + n)
    else none

/-- Models the JS `Number(string)` coercion, restricted to
optionally-signed decimal numerals (with an optional fractional part);
`none` represents `NaN`.  Exponent, hexadecimal and whitespace forms
are not modelled.  `Number("")` is `0` in JS. -/
def parseDecimal (s : String) : Option ℚ :=
  if s = "" then some 0
  else
    let neg := s.startsWith "-"
    let body := if s.startsWith "-" ∨ s.startsWith "+" then s.drop 1 else s
    match body.splitOn "." with
    | [intPart] =>
      if intPart = "" then none
      else
        match digitsToNat intPart.toList with
        | none => none
        | some n => some (if neg then -(n : ℚ) else (n : ℚ))
    | [intPart, fracPart] =>
      if intPart = "" ∧ fracPart = "" then none
      else
        match digitsToNat intPart.toList, digitsToNat fracPart.toList with
        | some n, some f =>
          let q : ℚ := (n : ℚ) + (f : ℚ) / (10 : ℚ) ^ fracPart.length
          some (if neg then -q else q)
        | _, _ => none
    | _ => none

/-- Models the JS `Number(value)` coercion on a message value; `none`
represents `NaN`.  A plain object coerces to `NaN`. -/
def jsNumber : Value → Option ℚ
  | .vnum q => some q
  | .vbig n => some (n : ℚ)
  | .vstr s => parseDecimal s
  | .vobj _ => none

/-- `ValidationResult` (types.ts): terminal verification outcome. -/
structure ValidationResult where
  isValid : Bool
  error : Option String := none
deriving DecidableEq

/-- `checkTimestamp` (verify.ts): temporal expiry check.  `now` is the
integer `Math.floor(Date.now() / 1000)`. -/
def checkTimestamp (now : ℤ) (message : List (String × Value)) (maxAge : ℚ) :
    ValidationResult :=
  match listLookup message "timestamp" with
  | none => { isValid := true }
  | some v =>
    match jsNumber v with
    | none => { isValid := false, error := some "Invalid timestamp format" }
    | some timestamp =>
      let normalizedTimestamp : ℚ :=
        if timestamp > 1000000000000 then ((⌊timestamp / 1000⌋ : ℤ) : ℚ) else timestamp
      if (now : ℚ) - normalizedTimestamp > maxAge then
        { isValid := false, error := some "Signature has expired" }
      else
        { isValid := true }

/-- `checkAccountDeployment` (verify.ts): `getClassAtOk` is whether the
provider's `getClassAt` call resolves; it throws both when the account
is not deployed and when the query itself fails. -/
def checkAccountDeployment (getClassAtOk : Bool) : ValidationResult :=
  if getClassAtOk then { isValid := false, error := some "Invalid signature" }
  else { isValid := false, error := some "Account not deployed" }

/-- A typed-data payload as consumed by the pipeline: its own `types`
mapping, primary type name, and message object. -/
structure TypedDataM where
  types : List (String × List SField)
  primaryType : String
  message : List (String × Value)

/-- `template.validate` (template.ts): validates the payload's message
against the payload's own `types[primaryType]` struct, wrapping any
error with the primary type name.  A missing primary type makes the
inner call and the re-wrapping constructor throw host errors. -/
def templateValidate (td : TypedDataM) : Except VError Unit :=
  match listLookup td.types td.primaryType with
  | none => .error (.engine "reading property type of undefined")
  | some st =>
    match validateStruct td.types st (.vobj td.message) with
    | .ok _ => .ok ()
    | .error e => .error (wrapError td.primaryType e)

/-- The outcomes of the external collaborators during one
`verifySignature` run: the wall clock, whether the hash computation
plus `verifyMessageInStarknet` call succeeds, and whether the
deployment query `getClassAt` resolves. -/
structure VerifyEnv where
  now : ℤ
  step3Ok : Bool
  getClassAtOk : Bool

/-- `VerifyOptions` (types.ts), with the template argument reduced to
whether one was supplied (a supplied template validates via
`templateValidate` on the payload itself). -/
structure VerifyOptionsM where
  maxAge : Option ℚ := none
  hasTemplate : Bool := false

/-- `verifySignature` (verify.ts): structural check (if a template was
supplied), temporal check (if `maxAge` was supplied), cryptographic
check, and deployment disambiguation on its failure. -/
def verifySignature (env : VerifyEnv) (td : TypedDataM) (opts : VerifyOptionsM) :
    ValidationResult :=
  let step1 : Option ValidationResult :=
    if opts.hasTemplate then
      match templateValidate td with
      | .error e =>
        some { isValid := false, error := some ("Invalid typed data: " ++ errMessage e) }
      | .ok _ => none
    else none
  match step1 with
  | some r => r
  | none =>
    let step2 : Option ValidationResult :=
      match opts.maxAge with
      | some a =>
        let r := checkTimestamp env.now td.message a
        if r.isValid then none else some r
      | none => none
    match step2 with
    | some r => r
    | none =>
      if env.step3Ok then { isValid := true }
      else checkAccountDeployment env.getClassAtOk

/-- `VerifyWithNonceOptions` (nonce.ts). -/
structure VerifyWithNonceOptionsM extends VerifyOptionsM where
  nonceField : Option String := none

/-- `options.nonceField || 'nonce'`: the empty string is falsy in JS,
so it also falls back to the default. -/
def nonceFieldName (opts : VerifyWithNonceOptionsM) : String :=
  match opts.nonceField with
  | some s => if s = "" then "nonce" else s
  | none => "nonce"

/-- A `NonceAdapter` (nonce.ts) over an explicit storage state:
`getCurrentNonce` and `updateNonce` each return their JS result
together with the storage state after the call. -/
structure AdapterM (σ : Type) where
  getCurrentNonce : σ → String → Option ℚ × σ
  updateNonce : σ → String → ℚ → Bool × σ

/-- `verifyWithNonce` (nonce.ts): verify the signature, then extract,
parse and compare the nonce, then commit it through the adapter.
Returns the `ValidationResult` and the final adapter state. -/
def verifyWithNonce {σ : Type} (env : VerifyEnv) (td : TypedDataM) (address : String)
    (adapter : AdapterM σ) (st : σ) (opts : VerifyWithNonceOptionsM) :
    ValidationResult × σ :=
  let signatureResult := verifySignature env td opts.toVerifyOptionsM
  if signatureResult.isValid then
    let nonceField := nonceFieldName opts
    match listLookup td.message nonceField with
    | none =>
      ({ isValid := false, error := some ("Missing " ++ nonceField ++ " in message") }, st)
    | some v =>
      match jsNumber v with
      | none => ({ isValid := false, error := some "Invalid nonce format" }, st)
      | some nonce =>
        match adapter.getCurrentNonce st address with
        | (none, st1) => ({ isValid := false, error := some "User not found" }, st1)
        | (some currentNonce, st1) =>
          if nonce ≤ currentNonce then
            ({ isValid := false, error := some "Invalid nonce" }, st1)
          else
            match adapter.updateNonce st1 address nonce with
            | (true, st2) => ({ isValid := true }, st2)
            | (false, st2) => ({ isValid := false, error := some "Failed to update nonce" }, st2)
  else
    (signatureResult, st)

/-- JS `String.prototype.toLowerCase` restricted to ASCII (addresses
are hex strings). -/
def jsToLower (s : String) : String := String.mk (s.data.map Char.toLower)

/-- `MemoryNonceAdapter` (nonce.ts): a map from lowercased address to
its counter, modelled as a function into `Option`. -/
def memoryAdapter : AdapterM (String → Option ℚ) where
  getCurrentNonce := fun st address => (st (jsToLower address), st)
  updateNonce := fun st address newNonce =>
    let normalizedAddress := jsToLower address
    match st normalizedAddress with
    | none => (false, st)
    | some current =>
      if newNonce ≤ current then (false, st)
      else (true, fun k => if k = normalizedAddress then some newNonce else st k)

/-- The `MemoryNonceAdapter` constructor: seeds each entry under the
lowercased key, later entries overriding earlier ones. -/
def memoryInit (initialNonces : List (String × ℚ)) : String → Option ℚ :=
  initialNonces.foldl
    (fun m p => fun k => if k = jsToLower p.1 then some p.2 else m k)
    (fun _ => none)

/-- Modelled from the spec: `normalizeAddress` (utils.ts, whose source
is not part of the provided files) — strip an optional `0x` prefix,
lowercase, left-pad with zeros to 64 hex digits, and re-prefix. -/
def normalizeAddress (address : String) : String :=
  let hex := if ("0x".data).isPrefixOf address.data then String.mk (address.data.drop 2)
    else address
  let lower := jsToLower hex
  "0x" ++ String.mk (List.replicate (64 - lower.length) '0') ++ lower

/-- The error-locator convention stated by the spec for a validation
error: path segments joined by arrows, then the leaf message. -/
def specLocator (path : List String) (message : String) : String :=
  String.intercalate "->" path ++ ": " ++ message

/-- One `MemoryNonceAdapter` operation, for stating monotonicity across
operation sequences. -/
inductive NonceOp where
  | get (address : String)
  | update (address : String) (newNonce : ℚ)

/-- Runs a sequence of `MemoryNonceAdapter` operations, threading the
storage state. -/
def runOps (st : String → Option ℚ) : List NonceOp → (String → Option ℚ)
  | [] => st
  | .get a :: rest => runOps (memoryAdapter.getCurrentNonce st a).2 rest
  | .update a n :: rest => runOps (memoryAdapter.updateNonce st a n).2 rest

theorem memoryAdapter_updateNonce_le (st : String → Option ℚ) (a : String) (n : ℚ)
    (k : String) (c : ℚ) (h : st k = some c) :
    ∃ d, (memoryAdapter.updateNonce st a n).2 k = some d ∧ c ≤ d := by
  simp only [memoryAdapter]
  cases hcur : st (jsToLower a) with
  | none => exact ⟨c, h, le_refl c⟩
  | some cur =>
    simp only
    split_ifs with hle
    · exact ⟨c, h, le_refl c⟩
    · by_cases hk : k = jsToLower a
      · subst hk
        rw [h] at hcur
        cases hcur
        exact ⟨n, by simp, le_of_lt (lt_of_not_le hle)⟩
      · exact ⟨c, by simp [hk, h], le_refl c⟩

/-- C8: for `MemoryNonceAdapter` and every address and value `n`,
`updateNonce(addr, n)` returns true iff `n` is strictly greater than
the stored current nonce for `addr` at the time of the call; after a
successful update, `getCurrentNonce(addr)` returns `n`; and the stored
counter for every address never decreases across any sequence of
`getCurrentNonce` / `updateNonce` operations. -/
theorem memoryAdapter_nonce_monotonic (st : String → Option ℚ) (addr : String) (n : ℚ) :
    ((memoryAdapter.updateNonce st addr n).1 = true ↔
      ∃ c, (memoryAdapter.getCurrentNonce st addr).1 = some c ∧ c < n) ∧
    ((memoryAdapter.updateNonce st addr n).1 = true →
      (memoryAdapter.getCurrentNonce (memoryAdapter.updateNonce st addr n).2 addr).1 = some n) ∧
    (∀ (ops : List NonceOp) (k : String) (c : ℚ), st k = some c →
      ∃ d, runOps st ops k = some d ∧ c ≤ d) := by
  refine ⟨?_, ?_, ?_⟩
  · simp only [memoryAdapter]
    cases hcur : st (jsToLower addr) with
    | none => simp
    | some cur =>
      simp only
      split_ifs with hle
      · simp
        exact hle
      · simp
        exact lt_of_not_le hle
  · simp only [memoryAdapter]
    cases hcur : st (jsToLower addr) with
    | none => simp
    | some cur =>
      simp only
      split_ifs with hle
      · simp
      · intro _
        simp
  · intro ops
    induction ops generalizing st with
    | nil => exact fun k c h => ⟨c, h, le_refl c⟩
    | cons op rest ih =>
      intro k c h
      cases op with
      | get a => exact ih st k c h
      | update a m =>
        obtain ⟨d, hd, hcd⟩ := memoryAdapter_updateNonce_le st a m k c h
        obtain ⟨e, he, hde⟩ := ih _ k d hd
        exact ⟨e, he, le_trans hcd hde⟩

/-- Witness for C8 at the spec's scenario B: seed `{"0x123": 5}`,
update to 10 succeeds and is then read back, and the counter does not
decrease across the run. -/
theorem memoryAdapter_nonce_monotonic_witness :
    (memoryAdapter.updateNonce (memoryInit [("0x123", 5)]) "0x123" 10).1 = true ∧
    (memoryAdapter.getCurrentNonce
      (memoryAdapter.updateNonce (memoryInit [("0x123", 5)]) "0x123" 10).2 "0x123").1 = some 10 ∧
    ∃ d, runOps (memoryInit [("0x123", 5)]) [.update "0x123" 10] "0x123" = some d ∧ (5 : ℚ) ≤ d :=
  ⟨by decide,
   (memoryAdapter_nonce_monotonic (memoryInit [("0x123", 5)]) "0x123" 10).2.1 (by decide),
   (memoryAdapter_nonce_monotonic (memoryInit [("0x123", 5)]) "0x123" 10).2.2
     [.update "0x123" 10] "0x123" 5 (by decide)⟩

/-- C9 (counterexample): `MemoryNonceAdapter` keys records by the
lowercased address only, not by the spec's zero-padded normalized form:
`"0x123"` and its zero-padded form normalize identically but address
different records. -/
theorem memoryAdapter_padding_counterexample :
    normalizeAddress "0x123" =
      normalizeAddress "0x0000000000000000000000000000000000000000000000000000000000000123" ∧
    (memoryAdapter.getCurrentNonce (memoryInit [("0x123", 5)]) "0x123").1 = some 5 ∧
    (memoryAdapter.getCurrentNonce (memoryInit [("0x123", 5)])
      "0x0000000000000000000000000000000000000000000000000000000000000123").1 = none ∧
    (memoryAdapter.updateNonce (memoryInit [("0x123", 5)]) "0x123" 10).1 = true ∧
    (memoryAdapter.updateNonce (memoryInit [("0x123", 5)])
      "0x0000000000000000000000000000000000000000000000000000000000000123" 10).1 = false := by
  refine ⟨by decide, by decide, by decide, by decide, by decide⟩

/-- C9 (amended): `MemoryNonceAdapter` keys records by the lowercased
address, so two address strings whose lowercased forms match operate on
the same record for both `getCurrentNonce` and `updateNonce`. -/
theorem memoryAdapter_lowercase_keying (st : String → Option ℚ) (a b : String) (n : ℚ)
    (h : jsToLower a = jsToLower b) :
    memoryAdapter.getCurrentNonce st a = memoryAdapter.getCurrentNonce st b ∧
    memoryAdapter.updateNonce st a n = memoryAdapter.updateNonce st b n := by
  constructor
  · simp only [memoryAdapter, h]
  · simp only [memoryAdapter, h]

/-- Witness for C9 (amended): `"0xABC"` and `"0xabc"` read the same
record. -/
theorem memoryAdapter_lowercase_keying_witness :
    jsToLower "0xABC" = jsToLower "0xabc" ∧
    memoryAdapter.getCurrentNonce (memoryInit [("0xABC", 5)]) "0xABC" =
      memoryAdapter.getCurrentNonce (memoryInit [("0xABC", 5)]) "0xabc" :=
  ⟨by decide, (memoryAdapter_lowercase_keying (memoryInit [("0xABC", 5)]) "0xABC" "0xabc" 0
    (by decide)).1⟩

/-- C10: a `verifyWithNonce` run over a `MemoryNonceAdapter` that
returns an invalid result (any error) leaves the stored nonce of every
address exactly as it was; the store changes only on runs that return
`{isValid: true}`. -/
theorem verifyWithNonce_state_unchanged_on_invalid (env : VerifyEnv) (td : TypedDataM)
    (addr : String) (st : String → Option ℚ) (opts : VerifyWithNonceOptionsM) :
    ((verifyWithNonce env td addr memoryAdapter st opts).1.isValid = false →
      (verifyWithNonce env td addr memoryAdapter st opts).2 = st) ∧
    ((verifyWithNonce env td addr memoryAdapter st opts).2 ≠ st →
      (verifyWithNonce env td addr memoryAdapter st opts).1.isValid = true) := by
  have main : (verifyWithNonce env td addr memoryAdapter st opts).1.isValid = false →
      (verifyWithNonce env td addr memoryAdapter st opts).2 = st := by
    intro hinv
    by_cases hsig : (verifySignature env td opts.toVerifyOptionsM).isValid
    · cases hlk : listLookup td.message (nonceFieldName opts) with
      | none => simp [verifyWithNonce, hsig, hlk]
      | some v =>
        cases hn : jsNumber v with
        | none => simp [verifyWithNonce, hsig, hlk, hn]
        | some nonce =>
          cases hcur : st (jsToLower addr) with
          | none => simp [verifyWithNonce, hsig, hlk, hn, memoryAdapter, hcur]
          | some cur =>
            by_cases hle : nonce ≤ cur
            · simp [verifyWithNonce, hsig, hlk, hn, memoryAdapter, hcur, hle]
            · exfalso
              rw [show (verifyWithNonce env td addr memoryAdapter st opts).1.isValid = true by
                simp [verifyWithNonce, hsig, hlk, hn, memoryAdapter, hcur, hle]] at hinv
              exact Bool.true_eq_false.mp hinv
    · simp only [Bool.not_eq_true] at hsig
      simp [verifyWithNonce, hsig]
  refine ⟨main, fun hne => ?_⟩
  by_cases hval : (verifyWithNonce env td addr memoryAdapter st opts).1.isValid
  · exact hval
  · simp only [Bool.not_eq_true] at hval
    exact absurd (main hval) hne

/-- Witness for C10: a run failing with "Invalid signature" leaves the
store untouched. -/
theorem verifyWithNonce_state_unchanged_on_invalid_witness :
    (verifyWithNonce ⟨0, false, true⟩ ⟨[], "T", [("nonce", .vnum 6)]⟩ "0x123" memoryAdapter
      (memoryInit [("0x123", 5)]) {}).1.isValid = false ∧
    (verifyWithNonce ⟨0, false, true⟩ ⟨[], "T", [("nonce", .vnum 6)]⟩ "0x123" memoryAdapter
      (memoryInit [("0x123", 5)]) {}).2 = memoryInit [("0x123", 5)] :=
  ⟨by decide,
   (verifyWithNonce_state_unchanged_on_invalid ⟨0, false, true⟩ ⟨[], "T", [("nonce", .vnum 6)]⟩
     "0x123" (memoryInit [("0x123", 5)]) {}).1 (by decide)⟩

/-- C1 (counterexample): the nonce adapter has no record for the
address, yet the result is not "User not found": when the underlying
signature verification fails, `verifyWithNonce` propagates that failure
unchanged, so the claimed result does not hold regardless of signature
validity. -/
theorem verifyWithNonce_unknown_address_counterexample :
    (memoryAdapter.getCurrentNonce (fun _ => none) "0x5").1 = none ∧
    (verifyWithNonce ⟨0, false, true⟩ ⟨[], "T", [("nonce", .vnum 1)]⟩ "0x5" memoryAdapter
      (fun _ => none) {}).1 = { isValid := false, error := some "Invalid signature" } ∧
    ({ isValid := false, error := some "Invalid signature" } : ValidationResult) ≠
      { isValid := false, error := some "User not found" } := by
  refine ⟨rfl, by decide, by decide⟩

/-- C1 (amended): when signature verification succeeds and the nonce
field is present and parses as a number, a call for which the adapter
has no record (`getCurrentNonce` returns null) results in
`{isValid: false, error: "User not found"}`. -/
theorem verifyWithNonce_user_not_found {σ : Type} (env : VerifyEnv) (td : TypedDataM)
    (addr : String) (adapter : AdapterM σ) (st : σ) (opts : VerifyWithNonceOptionsM)
    (v : Value) (n : ℚ)
    (hsig : verifySignature env td opts.toVerifyOptionsM = { isValid := true })
    (hv : listLookup td.message (nonceFieldName opts) = some v)
    (hn : jsNumber v = some n)
    (hcur : (adapter.getCurrentNonce st addr).1 = none) :
    (verifyWithNonce env td addr adapter st opts).1 =
      { isValid := false, error := some "User not found" } := by
  rcases hget : adapter.getCurrentNonce st addr with ⟨cur, st1⟩
  rw [hget] at hcur
  simp only at hcur
  subst hcur
  simp [verifyWithNonce, hsig, hv, hn, hget]

/-- Witness for C1 (amended). -/
theorem verifyWithNonce_user_not_found_witness :
    verifySignature ⟨0, true, true⟩ ⟨[], "T", [("nonce", .vnum 1)]⟩ {} = { isValid := true } ∧
    (verifyWithNonce ⟨0, true, true⟩ ⟨[], "T", [("nonce", .vnum 1)]⟩ "0x5" memoryAdapter
      (fun _ => none) {}).1 = { isValid := false, error := some "User not found" } :=
  ⟨by decide,
   verifyWithNonce_user_not_found ⟨0, true, true⟩ ⟨[], "T", [("nonce", .vnum 1)]⟩ "0x5"
     memoryAdapter (fun _ => none) {} (.vnum 1) 1 (by decide) rfl rfl rfl⟩

/-- C2: when signature verification succeeds and the nonce field is
present: an unparseable value yields "Invalid nonce format"; with a
stored current nonce, a parsed nonce equal to or lower than it yields
"Invalid nonce", and the call is accepted only if the parsed nonce is
strictly greater than the stored current nonce. -/
theorem verifyWithNonce_nonce_rules {σ : Type} (env : VerifyEnv) (td : TypedDataM)
    (addr : String) (adapter : AdapterM σ) (st : σ) (opts : VerifyWithNonceOptionsM) (v : Value)
    (hsig : verifySignature env td opts.toVerifyOptionsM = { isValid := true })
    (hv : listLookup td.message (nonceFieldName opts) = some v) :
    (jsNumber v = none →
      (verifyWithNonce env td addr adapter st opts).1 =
        { isValid := false, error := some "Invalid nonce format" }) ∧
    (∀ (n c : ℚ), jsNumber v = some n → (adapter.getCurrentNonce st addr).1 = some c →
      ((n ≤ c → (verifyWithNonce env td addr adapter st opts).1 =
          { isValid := false, error := some "Invalid nonce" }) ∧
       ((verifyWithNonce env td addr adapter st opts).1.isValid = true → c < n))) := by
  constructor
  · intro hn
    simp [verifyWithNonce, hsig, hv, hn]
  · intro n c hn hcur
    rcases hget : adapter.getCurrentNonce st addr with ⟨cur, st1⟩
    rw [hget] at hcur
    simp only at hcur
    subst hcur
    constructor
    · intro hle
      simp [verifyWithNonce, hsig, hv, hn, hget, hle]
    · intro hval
      by_contra hlt
      have hle : n ≤ c := le_of_not_lt hlt
      rw [show (verifyWithNonce env td addr adapter st opts).1 =
          { isValid := false, error := some "Invalid nonce" } by
        simp [verifyWithNonce, hsig, hv, hn, hget, hle]] at hval
      exact Bool.false_eq_true.mp hval

/-- Witness for C2: unparseable nonce, equal nonce, and an accepted
strictly-greater nonce. -/
theorem verifyWithNonce_nonce_rules_witness :
    (verifyWithNonce ⟨0, true, true⟩ ⟨[], "T", [("nonce", .vobj [])]⟩ "0x123" memoryAdapter
      (memoryInit [("0x123", 5)]) {}).1 =
      { isValid := false, error := some "Invalid nonce format" } ∧
    (verifyWithNonce ⟨0, true, true⟩ ⟨[], "T", [("nonce", .vnum 5)]⟩ "0x123" memoryAdapter
      (memoryInit [("0x123", 5)]) {}).1 = { isValid := false, error := some "Invalid nonce" } ∧
    (5 : ℚ) < 6 :=
  ⟨(verifyWithNonce_nonce_rules ⟨0, true, true⟩ ⟨[], "T", [("nonce", .vobj [])]⟩ "0x123"
      memoryAdapter (memoryInit [("0x123", 5)]) {} (.vobj []) (by decide) rfl).1 rfl,
   ((verifyWithNonce_nonce_rules ⟨0, true, true⟩ ⟨[], "T", [("nonce", .vnum 5)]⟩ "0x123"
      memoryAdapter (memoryInit [("0x123", 5)]) {} (.vnum 5) (by decide) rfl).2 5 5 rfl
      (by decide)).1 (by decide),
   ((verifyWithNonce_nonce_rules ⟨0, true, true⟩ ⟨[], "T", [("nonce", .vnum 6)]⟩ "0x123"
      memoryAdapter (memoryInit [("0x123", 5)]) {} (.vnum 6) (by decide) rfl).2 6 5 rfl
      (by decide)).2 (by decide)⟩

/-- C3: when the structural and temporal steps pass, the deployment
check is consulted only on cryptographic failure: on success the result
is `{isValid: true}` whatever the deployment status; on failure it is
"Invalid signature" when `getClassAt` resolves (account deployed), and
"Account not deployed" otherwise (not deployed, or the query itself
failed). -/
theorem verifySignature_deployment_disambiguation (env : VerifyEnv) (td : TypedDataM)
    (opts : VerifyOptionsM)
    (h1 : opts.hasTemplate = true → templateValidate td = .ok ())
    (h2 : ∀ a, opts.maxAge = some a → (checkTimestamp env.now td.message a).isValid = true) :
    (env.step3Ok = true → verifySignature env td opts = { isValid := true }) ∧
    (env.step3Ok = false → env.getClassAtOk = true →
      verifySignature env td opts = { isValid := false, error := some "Invalid signature" }) ∧
    (env.step3Ok = false → env.getClassAtOk = false →
      verifySignature env td opts = { isValid := false, error := some "Account not deployed" }) := by
  have hsteps : verifySignature env td opts =
      (if env.step3Ok then { isValid := true } else checkAccountDeployment env.getClassAtOk) := by
    unfold verifySignature
    cases ht : opts.hasTemplate with
    | true =>
      rw [h1 ht]
      cases hma : opts.maxAge with
      | none => simp
      | some a => simp [h2 a hma]
    | false =>
      cases hma : opts.maxAge with
      | none => simp
      | some a => simp [h2 a hma]
  refine ⟨fun h3 => ?_, fun h3 hd => ?_, fun h3 hd => ?_⟩
  · rw [hsteps, h3, if_pos rfl]
  · rw [hsteps, h3]
    simp [checkAccountDeployment, hd]
  · rw [hsteps, h3]
    simp [checkAccountDeployment, hd]

/-- Witness for C3: the three outcomes at concrete environments. -/
theorem verifySignature_deployment_disambiguation_witness :
    verifySignature ⟨0, true, true⟩ ⟨[], "T", []⟩ {} = { isValid := true } ∧
    verifySignature ⟨0, false, true⟩ ⟨[], "T", []⟩ {} =
      { isValid := false, error := some "Invalid signature" } ∧
    verifySignature ⟨0, false, false⟩ ⟨[], "T", []⟩ {} =
      { isValid := false, error := some "Account not deployed" } :=
  ⟨(verifySignature_deployment_disambiguation ⟨0, true, true⟩ ⟨[], "T", []⟩ {}
      (by simp) (by simp)).1 rfl,
   (verifySignature_deployment_disambiguation ⟨0, false, true⟩ ⟨[], "T", []⟩ {}
      (by simp) (by simp)).2.1 rfl rfl,
   (verifySignature_deployment_disambiguation ⟨0, false, false⟩ ⟨[], "T", []⟩ {}
      (by simp) (by simp)).2.2 rfl rfl⟩

/-- C4 (counterexample): with a template supplied and structural
validation failing at `Login.username` ("Not a string"), the pipeline's
error is `"Invalid typed data: " + e.message`, which carries only the
leaf reason — not the full `PrimaryType->field: leaf reason` locator
the claim describes. -/
theorem verifySignature_leaf_message_counterexample :
    templateValidate ⟨[("Login", [⟨"username", "string"⟩])], "Login", [("username", .vnum 123)]⟩ =
      .error (.typed ["Login", "username"] "Not a string") ∧
    verifySignature ⟨0, true, true⟩
      ⟨[("Login", [⟨"username", "string"⟩])], "Login", [("username", .vnum 123)]⟩
      { hasTemplate := true } =
      { isValid := false, error := some "Invalid typed data: Not a string" } ∧
    "Invalid typed data: Not a string" ≠
      "Invalid typed data: " ++ specLocator ["Login", "username"] "Not a string" := by
  have h1 : templateValidate
      ⟨[("Login", [⟨"username", "string"⟩])], "Login", [("username", .vnum 123)]⟩ =
      .error (.typed ["Login", "username"] "Not a string") := by
    simp [templateValidate, validateStruct, validateFields, validateSingle, keysOf, listLookup,
      wrapError]
  refine ⟨h1, ?_, by decide⟩
  simp [verifySignature, h1, errMessage]

/-- C4 (amended): when a template is supplied and structural validation
fails with a `TypedDataError`, the result is `{isValid: false}` with
error `"Invalid typed data: "` followed by the error's leaf message
(the accumulated field path is not included). -/
theorem verifySignature_invalid_typed_data (env : VerifyEnv) (td : TypedDataM)
    (opts : VerifyOptionsM) (p : List String) (m : String)
    (ht : opts.hasTemplate = true)
    (hval : templateValidate td = .error (.typed p m)) :
    verifySignature env td opts =
      { isValid := false, error := some ("Invalid typed data: " ++ m) } := by
  simp [verifySignature, ht, hval, errMessage]

/-- Witness for C4 (amended). -/
theorem verifySignature_invalid_typed_data_witness :
    ({ hasTemplate := true } : VerifyOptionsM).hasTemplate = true ∧
    templateValidate ⟨[("Login", [⟨"username", "string"⟩])], "Login", []⟩ =
      .error (.typed ["Login", "username"] "missing field") ∧
    verifySignature ⟨5, true, false⟩ ⟨[("Login", [⟨"username", "string"⟩])], "Login", []⟩
      { hasTemplate := true } =
      { isValid := false, error := some "Invalid typed data: missing field" } :=
  ⟨rfl,
   by simp [templateValidate, validateStruct, validateFields, validateSingle, keysOf, listLookup,
     wrapError],
   verifySignature_invalid_typed_data ⟨5, true, false⟩
     ⟨[("Login", [⟨"username", "string"⟩])], "Login", []⟩ { hasTemplate := true }
     ["Login", "username"] "missing field" rfl
     (by simp [templateValidate, validateStruct, validateFields, validateSingle, keysOf,
       listLookup, wrapError])⟩

/-- C7: a message with no timestamp field is vacuously valid; a
non-numeric timestamp yields "Invalid timestamp format"; a timestamp in
the seconds regime (at most 10^12) is stale exactly when `now - ts`
exceeds `maxAge`, so `now - maxAge` is valid and `now - maxAge - 1` is
expired (instantiated at `maxAge = 300`); a timestamp greater than
10^12 is first divided by 1000 with floor (treated as milliseconds). -/
theorem checkTimestamp_boundary (now : ℤ) (maxAge : ℚ) (message : List (String × Value)) :
    (listLookup message "timestamp" = none →
      checkTimestamp now message maxAge = { isValid := true }) ∧
    (∀ v, listLookup message "timestamp" = some v → jsNumber v = none →
      checkTimestamp now message maxAge =
        { isValid := false, error := some "Invalid timestamp format" }) ∧
    (∀ v ts, listLookup message "timestamp" = some v → jsNumber v = some ts →
      ts ≤ 1000000000000 →
      checkTimestamp now message maxAge =
        (if (now : ℚ) - ts > maxAge then
          { isValid := false, error := some "Signature has expired" }
        else { isValid := true })) ∧
    (∀ v ts, listLookup message "timestamp" = some v → jsNumber v = some ts →
      ts > 1000000000000 →
      checkTimestamp now message maxAge =
        (if (now : ℚ) - ((⌊ts / 1000⌋ : ℤ) : ℚ) > maxAge then
          { isValid := false, error := some "Signature has expired" }
        else { isValid := true })) ∧
    (∀ v, listLookup message "timestamp" = some v → jsNumber v = some ((now : ℚ) - 300) →
      (now : ℚ) - 300 ≤ 1000000000000 →
      checkTimestamp now message 300 = { isValid := true }) ∧
    (∀ v, listLookup message "timestamp" = some v → jsNumber v = some ((now : ℚ) - 301) →
      (now : ℚ) - 301 ≤ 1000000000000 →
      checkTimestamp now message 300 =
        { isValid := false, error := some "Signature has expired" }) := by
  have key : ∀ (ma : ℚ) (v : Value) (ts : ℚ), listLookup message "timestamp" = some v →
      jsNumber v = some ts → ts ≤ 1000000000000 →
      checkTimestamp now message ma =
        (if (now : ℚ) - ts > ma then
          { isValid := false, error := some "Signature has expired" }
        else { isValid := true }) := by
    intro ma v ts hv hn hle
    have hgt : ¬ (ts > 1000000000000) := not_lt.mpr hle
    simp only [checkTimestamp, hv, hn, if_neg hgt]
  refine ⟨?_, ?_, ?_, ?_, ?_, ?_⟩
  · intro h
    simp [checkTimestamp, h]
  · intro v hv hn
    simp [checkTimestamp, hv, hn]
  · exact key maxAge
  · intro v ts hv hn hgt
    simp only [checkTimestamp, hv, hn, if_pos hgt]
  · intro v hv hn hle
    rw [key 300 v ((now : ℚ) - 300) hv hn hle]
    have : (now : ℚ) - ((now : ℚ) - 300) = 300 := by ring
    rw [this, if_neg (by norm_num)]
  · intro v hv hn hle
    rw [key 300 v ((now : ℚ) - 301) hv hn hle]
    have : (now : ℚ) - ((now : ℚ) - 301) = 301 := by ring
    rw [this, if_pos (by norm_num)]

/-- Witness for C7: no timestamp, unparseable timestamp, and the exact
boundary at `maxAge = 300` with `now = 1000000`. -/
theorem checkTimestamp_boundary_witness :
    checkTimestamp 1000000 [] 300 = { isValid := true } ∧
    checkTimestamp 1000000 [("timestamp", .vobj [])] 300 =
      { isValid := false, error := some "Invalid timestamp format" } ∧
    checkTimestamp 1000000 [("timestamp", .vnum 999700)] 300 = { isValid := true } ∧
    checkTimestamp 1000000 [("timestamp", .vnum 999699)] 300 =
      { isValid := false, error := some "Signature has expired" } :=
  ⟨(checkTimestamp_boundary 1000000 300 []).1 rfl,
   (checkTimestamp_boundary 1000000 300 [("timestamp", .vobj [])]).2.1 (.vobj []) rfl rfl,
   (checkTimestamp_boundary 1000000 300 [("timestamp", .vnum 999700)]).2.2.2.2.1 (.vnum 999700)
     rfl (by norm_num [jsNumber]) (by norm_num),
   (checkTimestamp_boundary 1000000 300 [("timestamp", .vnum 999699)]).2.2.2.2.2 (.vnum 999699)
     rfl (by norm_num [jsNumber]) (by norm_num)⟩

theorem filter_head_of_find? {α : Type} (p : α → Bool) (l : List α) (u : α)
    (h : l.find? p = some u) : ∃ t, l.filter p = u :: t := by
  induction l with
  | nil => simp at h
  | cons a rest ih =>
    by_cases hp : p a
    · rw [List.find?_cons_of_pos _ hp] at h
      cases h
      exact ⟨rest.filter p, by rw [List.filter_cons_of_pos hp]⟩
    · rw [List.find?_cons_of_neg _ hp] at h
      obtain ⟨t, ht⟩ := ih h
      exact ⟨t, by rw [List.filter_cons_of_neg (by simpa using hp), ht]⟩

/-- C5: if the value holds any field name not declared in the struct,
`validateType` fails immediately with "unexpected field" attributed to
the first such name in the value's own enumeration order — for every
struct and value, so in particular before any missing-field or
per-field type check. -/
theorem validateType_unexpected_first (types : List (String × List SField))
    (fields : List SField) (l : List (String × Value)) (u : String)
    (h : (l.map fun p => p.1).find?
      (fun f => !((fields.map fun t => t.name).contains f)) = some u) :
    validateStruct types fields (.vobj l) = .error (.typed [u] "unexpected field") := by
  obtain ⟨t, ht⟩ := filter_head_of_find? _ _ _ h
  simp only [validateStruct, keysOf]
  rw [ht]

/-- Witness for C5: the value's only field "z" is undeclared while the
declared field "a" is missing, and the error is still "unexpected
field" at "z". -/
theorem validateType_unexpected_first_witness :
    (([("z", Value.vnum 2)].map fun p => p.1).find?
      (fun f => !((([⟨"a", "felt"⟩] : List SField).map fun t => t.name).contains f)) =
      some "z") ∧
    validateStruct [] [⟨"a", "felt"⟩] (.vobj [("z", .vnum 2)]) =
      .error (.typed ["z"] "unexpected field") :=
  ⟨by decide, validateType_unexpected_first [] [⟨"a", "felt"⟩] [("z", .vnum 2)] "z" (by decide)⟩

/-- C6 (counterexample): the struct declares `a : string` then
`b : string`; the value `{a: 3}` has no undeclared field and `b` is
absent, yet `validateType` fails with `a`'s type error ("Not a
string"), not with "missing field" at `b`: presence and per-field type
checks are interleaved in declaration order. -/
theorem validateType_missing_interleaving_counterexample :
    validateStruct [] [⟨"a", "string"⟩, ⟨"b", "string"⟩] (.vobj [("a", .vnum 3)]) =
      .error (.typed ["a"] "Not a string") ∧
    VError.typed ["a"] "Not a string" ≠ VError.typed ["b"] "missing field" := by
  constructor
  · simp [validateStruct, validateFields, validateSingle, keysOf, listLookup, wrapError]
  · decide

theorem validateFields_missing_first (types : List (String × List SField)) (pre : List SField)
    (f : SField) (post : List SField) (l : List (String × Value))
    (hpre : ∀ g ∈ pre, ∃ v, listLookup l g.name = some v ∧
      validateSingle types g.type v = .ok ())
    (habs : listLookup l f.name = none) :
    validateFields types (pre ++ f :: post) (.vobj l) =
      .error (.typed [f.name] "missing field") := by
  induction pre with
  | nil =>
    simp only [List.nil_append, validateFields]
    split
    · rfl
    · next v' heq => rw [habs] at heq; cases heq
  | cons g rest ih =>
    obtain ⟨v, hv, hok⟩ := hpre g (List.mem_cons_self g rest)
    simp only [List.cons_append, validateFields]
    split
    · next heq => rw [hv] at heq; cases heq
    · next v' heq =>
        rw [hv] at heq
        injection heq with h2
        subst h2
        rw [hok]
        exact ih (fun g' hg' => hpre g' (List.mem_cons_of_mem g hg'))

/-- C6 (amended): if the value holds no undeclared field, some declared
field is absent, and every declared field before the first absent one
is present with a value that validates, then `validateType` fails with
"missing field" attributed to that first absent field (the path's last
segment is its name). -/
theorem validateType_missing_field_first_absent (types : List (String × List SField))
    (pre : List SField) (f : SField) (post : List SField) (l : List (String × Value))
    (hnoextra : (l.map fun p => p.1).filter
      (fun k => !(((pre ++ f :: post).map fun t => t.name).contains k)) = [])
    (hpre : ∀ g ∈ pre, ∃ v, listLookup l g.name = some v ∧
      validateSingle types g.type v = .ok ())
    (habs : listLookup l f.name = none) :
    validateStruct types (pre ++ f :: post) (.vobj l) =
      .error (.typed [f.name] "missing field") := by
  simp only [validateStruct, keysOf]
  rw [hnoextra]
  exact validateFields_missing_first types pre f post l hpre habs

/-- Witness for C6 (amended): `a` present and valid, `b` absent. -/
theorem validateType_missing_field_first_absent_witness :
    (([("a", Value.vstr "x")].map fun p => p.1).filter
      (fun k => !((([⟨"a", "string"⟩, ⟨"b", "felt"⟩] : List SField).map fun t => t.name).contains
        k)) = []) ∧
    listLookup [("a", Value.vstr "x")] "b" = none ∧
    validateStruct [] [⟨"a", "string"⟩, ⟨"b", "felt"⟩] (.vobj [("a", .vstr "x")]) =
      .error (.typed ["b"] "missing field") :=
  ⟨by decide, rfl,
   validateType_missing_field_first_absent [] [⟨"a", "string"⟩] ⟨"b", "felt"⟩ []
     [("a", .vstr "x")] (by decide)
     (by
       intro g hg
       simp only [List.mem_singleton] at hg
       subst hg
       exact ⟨.vstr "x", rfl, by simp [validateSingle]⟩)
     rfl⟩
